import Mathlib

/-!
Verification of the potion-factory operations dashboard.

The repository consists of a React dashboard client (frontend App) and a
Flask backend exposing a caching proxy plus a ticket-annotation layer.
The backend's core components (Cache Store, Refresh Coordinator, History
Accumulator, Ticket Annotator) are modelled here from the specification;
the dashboard client's data-fetching and rendering logic is embedded from
the frontend source (fetchData, getSeverityBadge, URL construction and
the polling/refresh call sites).
-/

namespace Brew

/-! ## Ticket Annotator data model -/

/-- Severity ranking of a suspicious ticket: medium < high < critical. -/
inductive Severity where
  | medium
  | high
  | critical
deriving DecidableEq, Repr

/-- Modelled from the spec: a Cauldron record (unique id, optional display
name, maximum volume in liters, geographic position). The backend source
(backend/app.py) is not part of the corpus. Volumes and coordinates are
modelled as rationals. -/
structure Cauldron where
  id : String
  name : Option String
  max_volume : ℚ
  latitude : ℚ
  longitude : ℚ
deriving DecidableEq, Repr

/-- Modelled from the spec: a TransportTicket as received from upstream. -/
structure TransportTicket where
  ticket_id : String
  cauldron_id : String
  amount_collected : ℚ
  courier_id : String
  date : String
deriving DecidableEq, Repr

/-- Modelled from the spec: a TransportTicket plus its suspicion verdict. -/
structure AnnotatedTicket where
  ticket : TransportTicket
  is_suspicious : Bool
  suspicion_severity : Option Severity
  suspicion_reason : Option String
deriving DecidableEq, Repr

/-- Look up a cauldron by id in the current cauldron set. -/
def findCauldron (cs : List Cauldron) (cid : String) : Option Cauldron :=
  cs.find? (fun c => c.id == cid)

/-- Reason text for a capacity violation, citing the excess amount. -/
def excessReason (excess : ℚ) : String :=
  "amount exceeds cauldron max volume by " ++ toString excess ++ " L"

/-- Reason text for an outlier amount, citing the deviation from the
courier's typical collected amount. -/
def deviationReason (amount typical : ℚ) : String :=
  "amount " ++ toString amount ++ " deviates from typical " ++ toString typical

/-- Modelled from the spec: the fixed multiple of the observed spread used
by the outlier rule (an implementation-defined policy constant). -/
def outlierMultiplier : ℚ := 3

/-- The amounts collected by a given courier within the current ticket set. -/
def courierAmounts (all : List TransportTicket) (courier : String) : List ℚ :=
  (all.filter (fun u => u.courier_id == courier)).map (fun u => u.amount_collected)

/-- Arithmetic mean of a list of rationals (0 on the empty list). -/
def mean (xs : List ℚ) : ℚ := xs.sum / (xs.length : ℚ)

/-- Mean absolute deviation of a list of rationals, the "observed spread". -/
def meanAbsDev (xs : List ℚ) : ℚ :=
  ((xs.map (fun x => |x - mean xs|)).sum) / (xs.length : ℚ)

/-- Modelled from the spec: the outlier test of classification rule 3 — the
amount deviates from the courier's typical collected amount by more than a
fixed multiple of the observed spread within the current ticket set. -/
def isOutlier (all : List TransportTicket) (t : TransportTicket) : Bool :=
  decide (outlierMultiplier * meanAbsDev (courierAmounts all t.courier_id)
    < |t.amount_collected - mean (courierAmounts all t.courier_id)|)

/-- Modelled from the spec: classify one ticket against the cauldron set
and the current ticket set, applying the rules in precedence order
(unknown cauldron, capacity violation, outlier amount, otherwise valid);
first match wins. -/
def classifyWith (cs : List Cauldron) (all : List TransportTicket)
    (t : TransportTicket) : AnnotatedTicket :=
  match findCauldron cs t.cauldron_id with
  | none =>
      { ticket := t, is_suspicious := true, suspicion_severity := some Severity.high,
        suspicion_reason := some "references unknown cauldron" }
  | some c =>
      if c.max_volume < t.amount_collected then
        { ticket := t, is_suspicious := true, suspicion_severity := some Severity.critical,
          suspicion_reason := some (excessReason (t.amount_collected - c.max_volume)) }
      else if isOutlier all t then
        { ticket := t, is_suspicious := true, suspicion_severity := some Severity.medium,
          suspicion_reason :=
            some (deviationReason t.amount_collected (mean (courierAmounts all t.courier_id))) }
      else
        { ticket := t, is_suspicious := false, suspicion_severity := none,
          suspicion_reason := none }

/-- Modelled from the spec: `annotate(tickets, cauldrons)` — a pure
function producing one AnnotatedTicket per input ticket, order preserved. -/
def annotate (ts : List TransportTicket) (cs : List Cauldron) : List AnnotatedTicket :=
  ts.map (classifyWith cs ts)

/-! ## Annotator lemmas -/

/-- Classification returns its input ticket unchanged. -/
theorem classifyWith_ticket (cs : List Cauldron) (all : List TransportTicket)
    (t : TransportTicket) : (classifyWith cs all t).ticket = t := by
  unfold classifyWith
  cases findCauldron cs t.cauldron_id with
  | none => rfl
  | some c =>
      dsimp only
      split
      · rfl
      · split <;> rfl

/-- A courier's amount list is permuted when the ticket set is permuted. -/
theorem courierAmounts_perm {all all2 : List TransportTicket}
    (h : all.Perm all2) (courier : String) :
    (courierAmounts all courier).Perm (courierAmounts all2 courier) := by
  unfold courierAmounts
  exact (h.filter (fun u => u.courier_id == courier)).map (fun u => u.amount_collected)

/-- The mean is invariant under permutation. -/
theorem mean_perm {xs ys : List ℚ} (h : xs.Perm ys) : mean xs = mean ys := by
  unfold mean
  rw [h.sum_eq, h.length_eq]

/-- The mean absolute deviation is invariant under permutation. -/
theorem meanAbsDev_perm {xs ys : List ℚ} (h : xs.Perm ys) :
    meanAbsDev xs = meanAbsDev ys := by
  unfold meanAbsDev
  rw [mean_perm h, (h.map (fun x => |x - mean ys|)).sum_eq, h.length_eq]

/-- The outlier test is invariant under permutation of the ticket set. -/
theorem isOutlier_perm {all all2 : List TransportTicket}
    (h : all.Perm all2) (t : TransportTicket) :
    isOutlier all t = isOutlier all2 t := by
  unfold isOutlier
  rw [mean_perm (courierAmounts_perm h t.courier_id),
    meanAbsDev_perm (courierAmounts_perm h t.courier_id)]

/-- A ticket's verdict is invariant under permutation of the ticket set. -/
theorem classifyWith_perm {all all2 : List TransportTicket} (h : all.Perm all2)
    (cs : List Cauldron) (t : TransportTicket) :
    classifyWith cs all t = classifyWith cs all2 t := by
  simp only [classifyWith, isOutlier_perm h, mean_perm (courierAmounts_perm h t.courier_id)]

/-! ## Claim theorems for the Ticket Annotator -/

/-- C1: a ticket whose referenced cauldron is present in the cauldron set and
whose amount_collected exceeds that cauldron's max_volume is annotated as
suspicious with severity critical, with a reason citing the excess amount. -/
theorem capacity_violation_critical (ts : List TransportTicket) (cs : List Cauldron)
    (i : Nat) (hi : i < ts.length) (c : Cauldron)
    (hc : findCauldron cs (ts.get ⟨i, hi⟩).cauldron_id = some c)
    (hv : c.max_volume < (ts.get ⟨i, hi⟩).amount_collected) :
    ∃ hia : i < (annotate ts cs).length,
      ((annotate ts cs).get ⟨i, hia⟩).is_suspicious = true
      ∧ ((annotate ts cs).get ⟨i, hia⟩).suspicion_severity = some Severity.critical
      ∧ ((annotate ts cs).get ⟨i, hia⟩).suspicion_reason
          = some (excessReason ((ts.get ⟨i, hi⟩).amount_collected - c.max_volume)) := by
  have hlen : (annotate ts cs).length = ts.length := by
    simp [annotate]
  refine ⟨hlen ▸ hi, ?_⟩
  have hget : (annotate ts cs).get ⟨i, hlen ▸ hi⟩ = classifyWith cs ts (ts.get ⟨i, hi⟩) := by
    simp [annotate]
  rw [hget]
  unfold classifyWith
  rw [hc]
  simp only [List.get_eq_getElem] at hv
  simp [hv]

/-- C2: a ticket whose cauldron_id is absent from the cauldron set is
annotated as suspicious with severity high and reason "references unknown
cauldron", regardless of its amount (this rule is checked first, so it wins
over the capacity-violation and outlier rules). -/
theorem unknown_cauldron_high (ts : List TransportTicket) (cs : List Cauldron)
    (i : Nat) (hi : i < ts.length)
    (hc : findCauldron cs (ts.get ⟨i, hi⟩).cauldron_id = none) :
    ∃ hia : i < (annotate ts cs).length,
      ((annotate ts cs).get ⟨i, hia⟩).is_suspicious = true
      ∧ ((annotate ts cs).get ⟨i, hia⟩).suspicion_severity = some Severity.high
      ∧ ((annotate ts cs).get ⟨i, hia⟩).suspicion_reason
          = some "references unknown cauldron" := by
  have hlen : (annotate ts cs).length = ts.length := by
    simp [annotate]
  refine ⟨hlen ▸ hi, ?_⟩
  have hget : (annotate ts cs).get ⟨i, hlen ▸ hi⟩ = classifyWith cs ts (ts.get ⟨i, hi⟩) := by
    simp [annotate]
  rw [hget]
  unfold classifyWith
  rw [hc]
  exact ⟨rfl, rfl, rfl⟩

/-- C3: annotate is a pure function of its two inputs — it produces exactly
one AnnotatedTicket per input ticket in the same order, equal inputs yield
identical output, and permuting the input ticket order permutes the output
by the same permutation without changing any individual ticket's verdict
(the output over the permuted input is the same verdict function mapped
over the permuted list). -/
theorem annotate_pure_deterministic (ts ts2 : List TransportTicket)
    (cs : List Cauldron) (h : ts.Perm ts2) :
    (annotate ts cs).map AnnotatedTicket.ticket = ts
    ∧ (∀ ts3 cs3, ts3 = ts → cs3 = cs → annotate ts3 cs3 = annotate ts cs)
    ∧ annotate ts2 cs = ts2.map (classifyWith cs ts) := by
  refine ⟨?_, fun ts3 cs3 h3 h4 => by rw [h3, h4], ?_⟩
  · unfold annotate
    rw [List.map_map]
    have hcomp : (AnnotatedTicket.ticket ∘ classifyWith cs ts) = id :=
      funext fun t => classifyWith_ticket cs ts t
    rw [hcomp, List.map_id]
  · unfold annotate
    have hf : classifyWith cs ts2 = classifyWith cs ts :=
      funext (fun t => (classifyWith_perm h cs t).symm)
    rw [hf]

/-! ## Concrete fixtures for witnesses -/

/-- A cauldron with max volume 100 L, as in the spec scenario. -/
def c100 : Cauldron :=
  { id := "C1", name := none, max_volume := 100, latitude := 0, longitude := 0 }

/-- Ticket T1 collecting 120 L against cauldron C1, as in the spec scenario. -/
def t120 : TransportTicket :=
  { ticket_id := "T1", cauldron_id := "C1", amount_collected := 120,
    courier_id := "K1", date := "2025-11-01" }

/-- A ticket referencing a cauldron id not in the cauldron set. -/
def tX : TransportTicket :=
  { ticket_id := "T2", cauldron_id := "CX", amount_collected := 10,
    courier_id := "K1", date := "2025-11-01" }

/-- C1 witness: the spec scenario — ticket T1 with amount_collected = 120
against cauldron C1 with max_volume = 100 is annotated critical. -/
theorem capacity_violation_critical_witness :
    ∃ hia : 0 < (annotate [t120] [c100]).length,
      ((annotate [t120] [c100]).get ⟨0, hia⟩).is_suspicious = true
      ∧ ((annotate [t120] [c100]).get ⟨0, hia⟩).suspicion_severity = some Severity.critical
      ∧ ((annotate [t120] [c100]).get ⟨0, hia⟩).suspicion_reason
          = some (excessReason (t120.amount_collected - c100.max_volume)) :=
  capacity_violation_critical [t120] [c100] 0 (by decide) c100 (by decide) (by decide)

/-- C2 witness: a ticket referencing unknown cauldron id CX is annotated
high with the fixed reason, even though its amount is small. -/
theorem unknown_cauldron_high_witness :
    ∃ hia : 0 < (annotate [tX] [c100]).length,
      ((annotate [tX] [c100]).get ⟨0, hia⟩).is_suspicious = true
      ∧ ((annotate [tX] [c100]).get ⟨0, hia⟩).suspicion_severity = some Severity.high
      ∧ ((annotate [tX] [c100]).get ⟨0, hia⟩).suspicion_reason
          = some "references unknown cauldron" :=
  unknown_cauldron_high [tX] [c100] 0 (by decide) (by decide)

/-- C3 witness: purity, order preservation and permutation-compatibility of
annotate at a concrete two-ticket input and its transposition. -/
theorem annotate_pure_deterministic_witness :
    (annotate [t120, tX] [c100]).map AnnotatedTicket.ticket = [t120, tX]
    ∧ (∀ ts3 cs3, ts3 = [t120, tX] → cs3 = [c100]
        → annotate ts3 cs3 = annotate [t120, tX] [c100])
    ∧ annotate [tX, t120] [c100] = [tX, t120].map (classifyWith [c100] [t120, tX]) :=
  annotate_pure_deterministic [t120, tX] [tX, t120] [c100] (by decide)

/-! ## History Accumulator -/

/-- Modelled from the spec: a LevelObservation — a timestamp and the mapping
from cauldron id to observed volume. The backend source (backend/app.py) is
not part of the corpus; timestamps are modelled as naturals. -/
structure LevelObservation where
  timestamp : Nat
  cauldron_levels : List (String × ℚ)
deriving DecidableEq, Repr

/-- Strict timestamp order between observations. -/
def obsLt (a b : LevelObservation) : Prop := a.timestamp < b.timestamp

instance : DecidableRel obsLt := fun a b => Nat.decLt a.timestamp b.timestamp

/-- Modelled from the spec: insert an observation into the log in timestamp
order; an observation whose timestamp already exists is not re-appended. -/
def insertObs (log : List LevelObservation) (o : LevelObservation) : List LevelObservation :=
  match log with
  | [] => [o]
  | x :: xs =>
      if o.timestamp < x.timestamp then o :: x :: xs
      else if o.timestamp = x.timestamp then x :: xs
      else x :: insertObs xs o

/-- Modelled from the spec: `append(observation)` — ordered, deduplicating
insert followed by eviction of the oldest entries whenever the log exceeds
the maximum retained count `maxLen`. -/
def appendObs (maxLen : Nat) (log : List LevelObservation)
    (o : LevelObservation) : List LevelObservation :=
  (insertObs log o).drop ((insertObs log o).length - maxLen)

/-- The log obtained by appending a sequence of observations to the empty log. -/
def buildLog (maxLen : Nat) (os : List LevelObservation) : List LevelObservation :=
  os.foldl (appendObs maxLen) []

/-! ## History Accumulator lemmas -/

/-- Every member of `insertObs log o` is `o` or a member of `log`. -/
theorem mem_insertObs {log : List LevelObservation} {o y : LevelObservation}
    (h : y ∈ insertObs log o) : y = o ∨ y ∈ log := by
  induction log with
  | nil =>
      simp [insertObs] at h
      exact Or.inl h
  | cons x xs ih =>
      unfold insertObs at h
      by_cases h1 : o.timestamp < x.timestamp
      · rw [if_pos h1, List.mem_cons] at h
        rcases h with h | h
        · exact Or.inl h
        · exact Or.inr h
      · rw [if_neg h1] at h
        by_cases h2 : o.timestamp = x.timestamp
        · rw [if_pos h2] at h
          exact Or.inr h
        · rw [if_neg h2, List.mem_cons] at h
          rcases h with h | h
          · exact Or.inr (List.mem_cons.mpr (Or.inl h))
          · rcases ih h with h3 | h3
            · exact Or.inl h3
            · exact Or.inr (List.mem_cons.mpr (Or.inr h3))

/-- Ordered insert preserves strict sorting by timestamp. -/
theorem pairwise_insertObs {log : List LevelObservation} (o : LevelObservation)
    (h : log.Pairwise obsLt) : (insertObs log o).Pairwise obsLt := by
  induction log with
  | nil => simp [insertObs, List.pairwise_singleton]
  | cons x xs ih =>
      rw [List.pairwise_cons] at h
      obtain ⟨hx, hxs⟩ := h
      unfold insertObs
      by_cases h1 : o.timestamp < x.timestamp
      · rw [if_pos h1]
        refine List.pairwise_cons.mpr ⟨?_, List.pairwise_cons.mpr ⟨hx, hxs⟩⟩
        intro y hy
        rw [List.mem_cons] at hy
        rcases hy with rfl | hy
        · exact h1
        · exact Nat.lt_trans h1 (hx y hy)
      · rw [if_neg h1]
        by_cases h2 : o.timestamp = x.timestamp
        · rw [if_pos h2]
          exact List.pairwise_cons.mpr ⟨hx, hxs⟩
        · rw [if_neg h2]
          refine List.pairwise_cons.mpr ⟨?_, ih hxs⟩
          intro y hy
          rcases mem_insertObs hy with h3 | h3
          · subst h3
            exact Nat.lt_of_le_of_ne (Nat.le_of_not_lt h1) (fun e => h2 e.symm)
          · exact hx y h3

/-- Inserting an observation whose timestamp already occurs in a sorted log
leaves the log unchanged. -/
theorem insertObs_mem_noop {log : List LevelObservation} {o : LevelObservation}
    (hs : log.Pairwise obsLt)
    (h : o.timestamp ∈ log.map LevelObservation.timestamp) :
    insertObs log o = log := by
  induction log with
  | nil => simp at h
  | cons x xs ih =>
      rw [List.pairwise_cons] at hs
      obtain ⟨hx, hxs⟩ := hs
      rw [List.map_cons, List.mem_cons] at h
      unfold insertObs
      by_cases h1 : o.timestamp < x.timestamp
      · exfalso
        rcases h with h | h
        · exact Nat.lt_irrefl _ (h ▸ h1)
        · rcases List.mem_map.mp h with ⟨y, hy, hyt⟩
          exact Nat.lt_irrefl _ (Nat.lt_trans (hyt ▸ hx y hy) h1)
      · rw [if_neg h1]
        by_cases h2 : o.timestamp = x.timestamp
        · rw [if_pos h2]
        · rw [if_neg h2]
          rcases h with h | h
          · exact absurd h h2
          · rw [ih hxs h]

/-- Appending never lets the log exceed the maximum retained count. -/
theorem length_appendObs_le (maxLen : Nat) (log : List LevelObservation)
    (o : LevelObservation) : (appendObs maxLen log o).length ≤ maxLen := by
  unfold appendObs
  rw [List.length_drop]
  omega

/-- Appending preserves strict sorting by timestamp. -/
theorem pairwise_appendObs (maxLen : Nat) {log : List LevelObservation}
    (o : LevelObservation) (h : log.Pairwise obsLt) :
    (appendObs maxLen log o).Pairwise obsLt :=
  (pairwise_insertObs o h).sublist (List.drop_sublist _ _)

/-- The log built from any observation sequence is strictly sorted by
timestamp and bounded by the maximum retained count. -/
theorem buildLog_invariant (maxLen : Nat) (os : List LevelObservation) :
    (buildLog maxLen os).Pairwise obsLt ∧ (buildLog maxLen os).length ≤ maxLen := by
  suffices h : ∀ log : List LevelObservation, log.Pairwise obsLt → log.length ≤ maxLen →
      (os.foldl (appendObs maxLen) log).Pairwise obsLt
      ∧ (os.foldl (appendObs maxLen) log).length ≤ maxLen by
    exact h [] List.Pairwise.nil (Nat.zero_le maxLen)
  induction os with
  | nil => exact fun log h1 h2 => ⟨h1, h2⟩
  | cons o os ih =>
      intro log h1 _
      exact ih (appendObs maxLen log o) (pairwise_appendObs maxLen o h1)
        (length_appendObs_le maxLen log o)

/-! ## Claim theorems for the History Accumulator -/

/-- C4: for every sequence of appends starting from the empty log, the log
is strictly sorted ascending by timestamp (hence timestamps are unique),
and appending an observation whose timestamp already exists in the log is a
no-op, leaving the log's length and contents unchanged. -/
theorem history_sorted_unique_dedup (maxLen : Nat) (os : List LevelObservation)
    (o : LevelObservation) :
    (buildLog maxLen os).Pairwise obsLt
    ∧ (o.timestamp ∈ (buildLog maxLen os).map LevelObservation.timestamp →
        appendObs maxLen (buildLog maxLen os) o = buildLog maxLen os) := by
  obtain ⟨hs, hl⟩ := buildLog_invariant maxLen os
  refine ⟨hs, fun hmem => ?_⟩
  unfold appendObs
  rw [insertObs_mem_noop hs hmem]
  have : (buildLog maxLen os).length - maxLen = 0 := Nat.sub_eq_zero_of_le hl
  rw [this, List.drop_zero]

/-- C5: after every append the log length never exceeds the configured
maximum retained count, the append evicts from the front of the
timestamp-sorted inserted log (so the oldest timestamps go first), and
every evicted entry has a strictly older timestamp than every retained
entry. -/
theorem history_bounded_fifo (maxLen : Nat) (os : List LevelObservation)
    (o : LevelObservation) :
    (appendObs maxLen (buildLog maxLen os) o).length ≤ maxLen
    ∧ appendObs maxLen (buildLog maxLen os) o
        = (insertObs (buildLog maxLen os) o).drop
            ((insertObs (buildLog maxLen os) o).length - maxLen)
    ∧ (∀ x ∈ (insertObs (buildLog maxLen os) o).take
          ((insertObs (buildLog maxLen os) o).length - maxLen),
       ∀ y ∈ appendObs maxLen (buildLog maxLen os) o, x.timestamp < y.timestamp) := by
  obtain ⟨hs, _⟩ := buildLog_invariant maxLen os
  have hins : (insertObs (buildLog maxLen os) o).Pairwise obsLt :=
    pairwise_insertObs o hs
  refine ⟨length_appendObs_le maxLen _ o, rfl, ?_⟩
  intro x hx y hy
  have hsplit := hins
  rw [← List.take_append_drop
    ((insertObs (buildLog maxLen os) o).length - maxLen)
    (insertObs (buildLog maxLen os) o), List.pairwise_append] at hsplit
  exact hsplit.2.2 x hx y hy

/-- Observation fixtures for the history witnesses. -/
def ob1 : LevelObservation := { timestamp := 10, cauldron_levels := [("C1", 40)] }

/-- A later observation. -/
def ob2 : LevelObservation := { timestamp := 20, cauldron_levels := [("C1", 55)] }

/-- An observation sharing ob1's timestamp but different contents. -/
def ob1d : LevelObservation := { timestamp := 10, cauldron_levels := [("C1", 99)] }

/-- C4 witness: a log built from two out-of-order observations is sorted,
and re-appending an observation with an existing timestamp is a no-op. -/
theorem history_sorted_unique_dedup_witness :
    (buildLog 5 [ob2, ob1]).Pairwise obsLt
    ∧ appendObs 5 (buildLog 5 [ob2, ob1]) ob1d = buildLog 5 [ob2, ob1] :=
  ⟨(history_sorted_unique_dedup 5 [ob2, ob1] ob1d).1,
   (history_sorted_unique_dedup 5 [ob2, ob1] ob1d).2 (by decide)⟩

/-- C5 witness: with capacity 1, appending to a full log stays within the
bound and the evicted oldest entry has a strictly older timestamp than the
retained one. -/
theorem history_bounded_fifo_witness :
    (appendObs 1 (buildLog 1 [ob1]) ob2).length ≤ 1
    ∧ ob1.timestamp < ob2.timestamp :=
  ⟨(history_bounded_fifo 1 [ob1] ob2).1,
   (history_bounded_fifo 1 [ob1] ob2).2.2 ob1 (by decide) ob2 (by decide)⟩

/-! ## Cache Store -/

/-- Modelled from the spec: a cached snapshot with its fetch timestamp. -/
structure CacheEntry (α : Type) where
  value : α
  fetched_at : Nat
deriving DecidableEq, Repr

/-- Outcome of one upstream fetch attempt. -/
inductive UpstreamResult (α : Type) where
  | success (value : α)
  | failure
deriving DecidableEq, Repr

/-- Modelled from the spec: a cache entry is fresh iff
`now - fetched_at < freshness_window`. -/
def isFresh {α : Type} (e : CacheEntry α) (now window : Nat) : Bool :=
  now - e.fetched_at < window

/-- Modelled from the spec: `get_or_refresh(resource_type, force)` for one
resource type — cache-aside with stale-fallback. If `force` is set, or no
entry exists, or the entry is stale, attempt a refresh; on success replace
the entry and return the new snapshot; on failure return the previous
entry unchanged if one exists, otherwise propagate the failure. Returns
the response together with the resulting cache entry. The backend source
(backend/app.py) is not part of the corpus. -/
def get_or_refresh {α : Type} (entry : Option (CacheEntry α)) (force : Bool)
    (now window : Nat) (fetch : UpstreamResult α) :
    Except String α × Option (CacheEntry α) :=
  match entry with
  | none =>
      match fetch with
      | UpstreamResult.success v => (Except.ok v, some ⟨v, now⟩)
      | UpstreamResult.failure => (Except.error "UpstreamUnavailable", none)
  | some e =>
      if force || !isFresh e now window then
        match fetch with
        | UpstreamResult.success v => (Except.ok v, some ⟨v, now⟩)
        | UpstreamResult.failure => (Except.ok e.value, some e)
      else (Except.ok e.value, some e)

/-- C6: when the upstream fetch fails, `get_or_refresh` returns the cached
snapshot and leaves the entry unchanged whenever a previous entry exists
(stale-but-available), and propagates the failure when none exists. -/
theorem cache_stale_fallback {α : Type} (entry : Option (CacheEntry α))
    (force : Bool) (now window : Nat) :
    (∀ e, entry = some e →
      get_or_refresh entry force now window UpstreamResult.failure
        = (Except.ok e.value, some e))
    ∧ (entry = none →
      get_or_refresh entry force now window (UpstreamResult.failure (α := α))
        = (Except.error "UpstreamUnavailable", none)) := by
  constructor
  · intro e he
    subst he
    simp only [get_or_refresh]
    by_cases h : (force || !isFresh e now window) = true
    · rw [if_pos h]
    · rw [if_neg h]
  · intro he
    subst he
    rfl

/-- C6 witness: the spec scenario — a forced refresh fails but a prior
snapshot of 5 tickets exists, so the call returns the 5 cached tickets and
the entry is unchanged; with no prior entry the failure is propagated. -/
theorem cache_stale_fallback_witness :
    get_or_refresh (some ⟨[t120, tX, t120, tX, t120], 0⟩) true 100 30
        UpstreamResult.failure
      = (Except.ok [t120, tX, t120, tX, t120], some ⟨[t120, tX, t120, tX, t120], 0⟩)
    ∧ get_or_refresh (α := List TransportTicket) none true 100 30
        UpstreamResult.failure
      = (Except.error "UpstreamUnavailable", none) :=
  ⟨(cache_stale_fallback (some ⟨[t120, tX, t120, tX, t120], 0⟩) true 100 30).1
      ⟨[t120, tX, t120, tX, t120], 0⟩ rfl,
   (cache_stale_fallback (α := List TransportTicket) none true 100 30).2 rfl⟩

/-! ## Dashboard client (frontend App)

Embedded from the frontend source: the ticket objects rendered by the
dashboard carry dynamically-typed fields coming from JSON, so the
`is_suspicious` field is modelled as a JSON-ish value and
`suspicion_severity` as an optional string. -/

/-- A JSON-ish dynamic value, as relevant to the strict comparisons the
dashboard performs on `is_suspicious`. -/
inductive JVal where
  | jbool (b : Bool)
  | jstr (s : String)
  | jnum (q : ℚ)
  | jnull
  | jundef
deriving DecidableEq, Repr

/-- A ticket as rendered by the dashboard (fields from the annotated
tickets endpoint). -/
structure DTicket where
  ticket_id : String
  cauldron_id : String
  amount_collected : ℚ
  courier_id : String
  date : String
  is_suspicious : JVal
  suspicion_severity : Option String
  suspicion_reason : Option String
deriving DecidableEq, Repr

/-- Market metadata as rendered by the dashboard. -/
structure Market where
  id : String
  name : String
  latitude : ℚ
  longitude : ℚ
deriving DecidableEq, Repr

/-- The dashboard's suspicious test:
`is_suspicious === true || is_suspicious === "true" || is_suspicious === 1`. -/
def jsIsSuspicious : JVal → Bool
  | JVal.jbool b => b
  | JVal.jstr s => s == "true"
  | JVal.jnum q => q == 1
  | _ => false

/-- The dashboard's severity defaulting:
`const severity = ticket.suspicion_severity || "medium"` — a missing or
empty (falsy) string falls back to "medium". -/
def severityOf (sv : Option String) : String :=
  match sv with
  | none => "medium"
  | some s => if s = "" then "medium" else s

/-- The visual style of a ticket's status badge (color and icon family). -/
inductive BadgeStyle where
  | greenValid
  | redCritical
  | orangeHigh
  | yellowMedium
deriving DecidableEq, Repr

/-- The dashboard's style lookup:
`styles[severity] || styles.medium` — only critical, high and medium have
dedicated styles, anything else falls back to medium. -/
def styleFor (sev : String) : BadgeStyle :=
  if sev = "critical" then BadgeStyle.redCritical
  else if sev = "high" then BadgeStyle.orangeHigh
  else BadgeStyle.yellowMedium

/-- A rendered status badge: its style and its text label. -/
structure BadgeRender where
  style : BadgeStyle
  label : String
deriving DecidableEq, Repr

/-- The dashboard's getSeverityBadge: a non-suspicious ticket renders as
VALID; a suspicious one renders its (defaulted) severity with the matching
style, uppercased as the label. -/
def getSeverityBadge (t : DTicket) : BadgeRender :=
  if jsIsSuspicious t.is_suspicious then
    { style := styleFor (severityOf t.suspicion_severity),
      label := (severityOf t.suspicion_severity).toUpper }
  else
    { style := BadgeStyle.greenValid, label := "VALID" }

/-! ## Dashboard data fetching (fetchData) -/

/-- Outcome of one endpoint fetch as seen by fetchData: either the parsed
JSON payload, or a thrown failure (non-ok status or network error) with
its message. -/
inductive FetchOutcome (α : Type) where
  | ok (value : α)
  | fail (msg : String)
deriving DecidableEq, Repr

/-- The dashboard component state touched by fetchData. -/
structure DashState where
  cauldrons : List Cauldron
  market : Option Market
  historicalData : List LevelObservation
  currentLevels : List (String × ℚ)
  tickets : List DTicket
  annotatedTickets : List DTicket
  error : Option String
  selectedCauldron : Option String
  loading : Bool
deriving Repr

/-- The error message fetchData stores on any failure:
`"Failed to fetch data: " + err.message`. -/
def fetchErrMsg (m : String) : String := "Failed to fetch data: " ++ m

/-- The historical-data step of fetchData: keep the last 200 points, and
take current levels from the most recent data point when one exists. -/
def applyHistory (s : DashState) (hd : List LevelObservation) : DashState :=
  let s1 := { s with historicalData := hd.drop (hd.length - 200) }
  match hd.getLast? with
  | some latest => { s1 with currentLevels := latest.cauldron_levels }
  | none => s1

/-- The dashboard's fetchData, embedded as a state transition over the four
endpoint outcomes, fetched in source order (cauldrons, market, data,
annotated tickets). A failure jumps to the catch block, which records the
error message; the finally block clears the loading flag; the tickets
payload models `ticketData.tickets || []` via an optional field. -/
def fetchData (s : DashState)
    (rc : FetchOutcome (List Cauldron)) (rm : FetchOutcome Market)
    (rd : FetchOutcome (List LevelObservation))
    (rt : FetchOutcome (Option (List DTicket))) : DashState :=
  let s0 := { s with loading := true }
  match rc with
  | FetchOutcome.fail m => { s0 with error := some (fetchErrMsg m), loading := false }
  | FetchOutcome.ok cd =>
      let s1 := { s0 with cauldrons := cd }
      match rm with
      | FetchOutcome.fail m => { s1 with error := some (fetchErrMsg m), loading := false }
      | FetchOutcome.ok md =>
          let s2 := { s1 with market := some md }
          match rd with
          | FetchOutcome.fail m => { s2 with error := some (fetchErrMsg m), loading := false }
          | FetchOutcome.ok hd =>
              let s3 := applyHistory s2 hd
              match rt with
              | FetchOutcome.fail m =>
                  { s3 with error := some (fetchErrMsg m), loading := false }
              | FetchOutcome.ok tdOpt =>
                  let td := tdOpt.getD []
                  let s4 := { s3 with tickets := td, annotatedTickets := td }
                  let s5 :=
                    match cd with
                    | [] => s4
                    | c :: _ =>
                        if s4.selectedCauldron = none
                        then { s4 with selectedCauldron := some c.id }
                        else s4
                  { s5 with error := none, loading := false }

/-- The error banner (with its Retry button) renders exactly when the error
state is non-null: `{error && (... Retry ...)}`. -/
def errorBanner (s : DashState) : Bool := s.error.isSome

/-! ## Dashboard request URLs and call sites -/

/-- The query-string suffix fetchData appends:
`${forceRefresh ? "?forceRefresh=true" : ""}`. -/
def forceSuffix (force : Bool) : String :=
  if force then "?forceRefresh=true" else ""

/-- URL of the cauldrons fetch in fetchData. -/
def cauldronsUrl (force : Bool) : String :=
  "/api/Information/cauldrons" ++ forceSuffix force

/-- URL of the market fetch in fetchData. -/
def marketUrl (force : Bool) : String :=
  "/api/Information/market" ++ forceSuffix force

/-- URL of the historical-data fetch in fetchData. -/
def dataUrl (force : Bool) : String :=
  "/api/Data" ++ forceSuffix force

/-- URL of the annotated-tickets fetch in fetchData. -/
def annotatedTicketsUrl (force : Bool) : String :=
  "/api/analyze/annotated-tickets" ++ forceSuffix force

/-- Default of fetchData's force argument: `fetchData = async (forceRefresh = false)`. -/
def fetchDataDefaultForce : Bool := false

/-- Force argument at the auto-poll call site:
`setInterval(() => fetchData(false), 10000)`. -/
def autoPollForce : Bool := false

/-- The auto-poll period in milliseconds. -/
def autoPollIntervalMs : Nat := 10000

/-- Force argument at the manual refresh button: `onClick={() => fetchData(true)}`. -/
def refreshButtonForce : Bool := true

/-- Force argument at the error banner's Retry button: `onClick={() => fetchData(false)}`. -/
def retryButtonForce : Bool := false

/-! ## Claim theorems for the dashboard client -/

/-- C8: whenever one of the four endpoint fetches fails, fetchData stores an
error message describing the failure (which makes the banner with the
manual Retry button render) and leaves every piece of state whose own
fetch did not succeed in that run exactly as it was: a failure at each
stage updates only the fields of the fetches that succeeded before it,
plus the error and loading flags. -/
theorem fetchData_error_handling (s : DashState)
    (rc : FetchOutcome (List Cauldron)) (rm : FetchOutcome Market)
    (rd : FetchOutcome (List LevelObservation))
    (rt : FetchOutcome (Option (List DTicket))) :
    (∀ m, rc = FetchOutcome.fail m →
      fetchData s rc rm rd rt
        = { s with error := some (fetchErrMsg m), loading := false }
      ∧ errorBanner (fetchData s rc rm rd rt) = true)
    ∧ (∀ cd m, rc = FetchOutcome.ok cd → rm = FetchOutcome.fail m →
      fetchData s rc rm rd rt
        = { s with cauldrons := cd, error := some (fetchErrMsg m), loading := false }
      ∧ errorBanner (fetchData s rc rm rd rt) = true)
    ∧ (∀ cd md m, rc = FetchOutcome.ok cd → rm = FetchOutcome.ok md →
        rd = FetchOutcome.fail m →
      fetchData s rc rm rd rt
        = { s with
            cauldrons := cd, market := some md,
            error := some (fetchErrMsg m), loading := false }
      ∧ errorBanner (fetchData s rc rm rd rt) = true)
    ∧ (∀ cd md hd m, rc = FetchOutcome.ok cd → rm = FetchOutcome.ok md →
        rd = FetchOutcome.ok hd → rt = FetchOutcome.fail m →
      fetchData s rc rm rd rt
        = { applyHistory { s with cauldrons := cd, market := some md } hd with
            error := some (fetchErrMsg m),
            loading := false }
      ∧ errorBanner (fetchData s rc rm rd rt) = true) := by
  refine ⟨?_, ?_, ?_, ?_⟩
  · intro m h1
    subst h1
    exact ⟨rfl, rfl⟩
  · intro cd m h1 h2
    subst h1; subst h2
    exact ⟨rfl, rfl⟩
  · intro cd md m h1 h2 h3
    subst h1; subst h2; subst h3
    exact ⟨rfl, rfl⟩
  · intro cd md hd m h1 h2 h3 h4
    subst h1; subst h2; subst h3; subst h4
    constructor
    · simp only [fetchData, applyHistory]
      cases hd.getLast? <;> rfl
    · simp only [fetchData, errorBanner, applyHistory]
      cases hd.getLast? <;> rfl

/-- A concrete dashboard state with previously displayed data, for the C8
witness. -/
def dashPrev : DashState :=
  { cauldrons := [c100], market := some ⟨"M1", "Market", 1, 2⟩,
    historicalData := [ob1], currentLevels := [("C1", 40)],
    tickets := [], annotatedTickets := [], error := none,
    selectedCauldron := some "C1", loading := false }

/-- C8 witness: with cauldrons and market fetched successfully and the
historical-data fetch failing, fetchData keeps the previous historical
data, levels and tickets, updates cauldrons and market, and shows the
error banner. -/
theorem fetchData_error_handling_witness :
    fetchData dashPrev (FetchOutcome.ok []) (FetchOutcome.ok ⟨"M2", "Bazaar", 3, 4⟩)
        (FetchOutcome.fail "Data API returned 500") (FetchOutcome.ok (some []))
      = { dashPrev with
          cauldrons := [], market := some ⟨"M2", "Bazaar", 3, 4⟩,
          error := some (fetchErrMsg "Data API returned 500"), loading := false }
    ∧ errorBanner (fetchData dashPrev (FetchOutcome.ok [])
        (FetchOutcome.ok ⟨"M2", "Bazaar", 3, 4⟩)
        (FetchOutcome.fail "Data API returned 500") (FetchOutcome.ok (some []))) = true :=
  (fetchData_error_handling dashPrev (FetchOutcome.ok [])
      (FetchOutcome.ok ⟨"M2", "Bazaar", 3, 4⟩)
      (FetchOutcome.fail "Data API returned 500") (FetchOutcome.ok (some []))).2.2.1
    [] ⟨"M2", "Bazaar", 3, 4⟩ "Data API returned 500" rfl rfl rfl

/-- C9: each of the four endpoint URLs carries the forceRefresh=true query
string exactly when fetchData's force argument is true; the 10-second
auto-poll and the default of fetchData's force parameter use force =
false, and only the manual refresh button uses force = true. -/
theorem force_refresh_query_param :
    cauldronsUrl true = "/api/Information/cauldrons?forceRefresh=true"
    ∧ cauldronsUrl false = "/api/Information/cauldrons"
    ∧ marketUrl true = "/api/Information/market?forceRefresh=true"
    ∧ marketUrl false = "/api/Information/market"
    ∧ dataUrl true = "/api/Data?forceRefresh=true"
    ∧ dataUrl false = "/api/Data"
    ∧ annotatedTicketsUrl true = "/api/analyze/annotated-tickets?forceRefresh=true"
    ∧ annotatedTicketsUrl false = "/api/analyze/annotated-tickets"
    ∧ autoPollForce = false
    ∧ fetchDataDefaultForce = false
    ∧ autoPollIntervalMs = 10000
    ∧ refreshButtonForce = true := by
  refine ⟨rfl, rfl, rfl, rfl, rfl, rfl, rfl, rfl, rfl, rfl, rfl, rfl⟩

/-- C10: a ticket whose is_suspicious field is none of true, "true" or 1 is
rendered as VALID regardless of any severity field, and a suspicious
ticket whose suspicion_severity is absent or is none of critical, high and
medium is rendered with the medium severity style. -/
theorem severity_badge_display (t : DTicket) :
    (t.is_suspicious ≠ JVal.jbool true → t.is_suspicious ≠ JVal.jstr "true" →
      t.is_suspicious ≠ JVal.jnum 1 →
      getSeverityBadge t = { style := BadgeStyle.greenValid, label := "VALID" })
    ∧ (jsIsSuspicious t.is_suspicious = true →
      t.suspicion_severity ≠ some "critical" → t.suspicion_severity ≠ some "high" →
      t.suspicion_severity ≠ some "medium" →
      (getSeverityBadge t).style = BadgeStyle.yellowMedium) := by
  constructor
  · intro h1 h2 h3
    have hns : jsIsSuspicious t.is_suspicious = false := by
      cases hv : t.is_suspicious with
      | jbool b =>
          cases b
          · rfl
          · exact absurd hv h1
      | jstr s =>
          simp only [jsIsSuspicious, beq_eq_false_iff_ne, ne_eq]
          intro hs
          exact h2 (by rw [hv, hs])
      | jnum q =>
          simp only [jsIsSuspicious, beq_eq_false_iff_ne, ne_eq]
          intro hq
          exact h3 (by rw [hv, hq])
      | jnull => rfl
      | jundef => rfl
    unfold getSeverityBadge
    rw [hns]
    rfl
  · intro hsus hc hh hm
    have hbadge : getSeverityBadge t =
        { style := styleFor (severityOf t.suspicion_severity),
          label := (severityOf t.suspicion_severity).toUpper } := by
      unfold getSeverityBadge
      rw [hsus]
      rfl
    rw [hbadge]
    cases hv : t.suspicion_severity with
    | none => rfl
    | some sv =>
        have hred : severityOf (some sv) = if sv = "" then "medium" else sv := rfl
        rw [hred]
        by_cases he : sv = ""
        · rw [if_pos he]
          rfl
        · rw [if_neg he]
          unfold styleFor
          rw [if_neg (fun h => hc (by rw [hv, h])),
            if_neg (fun h => hh (by rw [hv, h]))]

/-- A rendered ticket that is not suspicious under the dashboard's test. -/
def dt1 : DTicket :=
  { ticket_id := "T1", cauldron_id := "C1", amount_collected := 50,
    courier_id := "K1", date := "2025-11-01", is_suspicious := JVal.jstr "yes",
    suspicion_severity := some "critical", suspicion_reason := none }

/-- A rendered suspicious ticket with an unrecognized severity value. -/
def dt2 : DTicket :=
  { ticket_id := "T2", cauldron_id := "C1", amount_collected := 50,
    courier_id := "K1", date := "2025-11-01", is_suspicious := JVal.jnum 1,
    suspicion_severity := some "low", suspicion_reason := some "odd" }

/-- C10 witness: a ticket with is_suspicious = "yes" renders as VALID even
though a severity is present, and a suspicious ticket with severity "low"
renders with the medium style. -/
theorem severity_badge_display_witness :
    getSeverityBadge dt1 = { style := BadgeStyle.greenValid, label := "VALID" }
    ∧ (getSeverityBadge dt2).style = BadgeStyle.yellowMedium :=
  ⟨(severity_badge_display dt1).1 (by decide) (by decide) (by decide),
   (severity_badge_display dt2).2 (by decide) (by decide) (by decide) (by decide)⟩

end Brew
